import Mathlib

/-!
A shallow embedding of the IAM access-review Lambda
(`src/Lambda/access_review.py`) and proofs about it.

Modelling conventions:
* UTC instants are integers (seconds since the Unix epoch).  Python's
  `(a - b).days` on `datetime` values is floor division of the elapsed
  seconds by 86400, embedded here as `Int.fdiv (a - b) 86400`.
* Severities and emojis are the string literals the Python code uses.
* The S3 state store is embedded as an oracle `String → StateLookup`
  giving, for each key, the outcome of `s3.get_object` plus JSON parsing:
  a parsed record, `NoSuchKey`, a transport error, or a present-but-
  unparsable body.  `should_alert` catches only `NoSuchKey`; every other
  failure is an uncaught Python exception, embedded as `Except.error ()`.
* External side effects (S3 puts, SNS publish) are recorded as an ordered
  trace of `Event`s, in the order the Python code performs them.
-/

namespace AccessReview

/-- The per-user alert-state record persisted to S3 by `save_alert_state`
and parsed back by `should_alert`: `last_alerted` is the stored ISO-8601
UTC timestamp (as an epoch instant) and `severity` the stored string. -/
structure AlertState where
  last_alerted : Int
  severity : String
deriving DecidableEq, Repr

/-- Outcome of `s3.get_object` on an alert-state key followed by JSON
decoding, as observed by `should_alert`:
* `found rec` — the object exists and parses as an alert-state record;
* `noSuchKey` — `s3.exceptions.NoSuchKey` (the only caught exception);
* `getError` — any other `get_object` failure (transport error etc.);
* `malformed` — the object exists but its body fails to parse
  (`json.loads`, missing key, or `datetime.fromisoformat` raises). -/
inductive StateLookup where
  | found (rec : AlertState)
  | noSuchKey
  | getError
  | malformed
deriving DecidableEq, Repr

/-- `ALERT_STATE_PREFIX = "alerts/"` (module-level constant). -/
def alertStatePrefix : String := "alerts/"

/-- Default of `SUPPRESSION_DAYS = int(os.environ.get("SUPPRESSION_DAYS", "7"))`. -/
def default_suppression_days : Int := 7

/-- `calculate_risk(days_unused)`: maps days of inactivity to a
`(severity, emoji)` pair of strings.  Mirrors the `if` cascade:
`>= 180 → HIGH`, `>= 90 → MEDIUM`, otherwise `LOW`. -/
def calculate_risk (days_unused : Int) : String × String :=
  if days_unused ≥ 180 then ("HIGH", "🔴")
  else if days_unused ≥ 90 then ("MEDIUM", "🟠")
  else ("LOW", "🟢")

/-- `_alert_state_key(username)` returns `f"{ALERT_STATE_PREFIX}{username}.json"`. -/
def alert_state_key (username : String) : String :=
  alertStatePrefix ++ username ++ ".json"

/-- `should_alert(username, severity)`.  The S3 read (already keyed by
`_alert_state_key`) is supplied as its outcome `lookup`; `now` is the
value of `datetime.now(timezone.utc)` at the call.  Returns
`Except.error ()` when the Python function would raise an uncaught
exception (any lookup failure other than `NoSuchKey`). -/
def should_alert (lookup : StateLookup) (severity : String) (now : Int)
    (suppression_days : Int) : Except Unit Bool :=
  match lookup with
  | .found rec =>
    if severity ≠ rec.severity then
      -- "Severity increased (e.g., MEDIUM -> HIGH)" — in fact any change
      Except.ok true
    else if Int.fdiv (now - rec.last_alerted) 86400 ≥ suppression_days then
      -- suppression window expired
      Except.ok true
    else
      Except.ok false
  | .noSuchKey => Except.ok true
  | .getError => Except.error ()
  | .malformed => Except.error ()

/-- Observable external side effects of one run, in program order. -/
inductive Event where
  | save_state (key : String) (rec : AlertState)
  | put_report (key : String) (rows : List (List String))
  | publish (subject : String) (message : String)
deriving DecidableEq, Repr

/-- Classification of an event, used to state ordering properties. -/
inductive EventKind where
  | save
  | report
  | notify
deriving DecidableEq, Repr

/-- The kind of an event. -/
def Event.kind : Event → EventKind
  | .save_state _ _ => .save
  | .put_report _ _ => .report
  | .publish _ _ => .notify

/-- `save_alert_state(username, severity)`: the S3 put of
`{"last_alerted": now.isoformat(), "severity": severity}` under
`_alert_state_key(username)`, as a trace event. -/
def save_alert_state (username : String) (severity : String) (now : Int) : Event :=
  Event.save_state (alert_state_key username) { last_alerted := now, severity := severity }

/-- An IAM user record as consumed by `lambda_handler`:
`user["UserName"]` and the optional `user.get("PasswordLastUsed")`. -/
structure User where
  userName : String
  passwordLastUsed : Option Int
deriving DecidableEq, Repr

/-- The environment of one run: the IAM user list, the instant
`now = datetime.now(timezone.utc)`, the configured `REPORT_BUCKET` and
`SUPPRESSION_DAYS`, and the state-store oracle keyed by S3 key. -/
structure Env where
  users : List User
  now : Int
  report_bucket : String
  suppression_days : Int
  lookup : String → StateLookup

/-- Days of inactivity computed in the loop body of `lambda_handler`:
the sentinel `999` when `PasswordLastUsed` is absent, otherwise
`(now - last_used).days`. -/
def days_unused (env : Env) (u : User) : Int :=
  match u.passwordLastUsed with
  | none => 999
  | some t => Int.fdiv (env.now - t) 86400

/-- The mutable accumulator of `lambda_handler`'s loop: the `high` and
`medium` summary lines, the CSV `report_rows`, and the trace of side
effects performed so far. -/
structure RunAcc where
  high : List String
  medium : List String
  report_rows : List (List String)
  events : List Event
deriving DecidableEq, Repr

/-- The initial accumulator (`high = medium = report_rows = []`). -/
def initAcc : RunAcc := ⟨[], [], [], []⟩

/-- The body of the per-user `for` loop in `lambda_handler`: compute
`days_unused`, classify, `continue` on LOW, consult `should_alert`
(`continue` on `False`, propagate an uncaught exception as `.error`),
and on an alert append the report row, the summary line, and the
`save_alert_state` put — in that order. -/
def process_user (env : Env) (acc : RunAcc) (u : User) : Except Unit RunAcc :=
  let d := days_unused env u
  let severity := (calculate_risk d).1
  let emoji := (calculate_risk d).2
  if severity = "LOW" then Except.ok acc
  else
    match should_alert (env.lookup (alert_state_key u.userName)) severity
        env.now env.suppression_days with
    | .error e => Except.error e
    | .ok false => Except.ok acc
    | .ok true =>
      let line := "- " ++ u.userName ++ " (" ++ toString d ++ " days unused) " ++ emoji
      Except.ok
        { high := if severity = "HIGH" then acc.high ++ [line] else acc.high
          medium := if severity = "HIGH" then acc.medium else acc.medium ++ [line]
          report_rows := acc.report_rows ++ [[u.userName, toString d, severity]]
          events := acc.events ++ [save_alert_state u.userName severity env.now] }

/-- Gregorian civil date from a count of days since 1970-01-01
(the classic era-based conversion computed by Python's
`datetime.date`). Returns `(year, month, day)`. -/
def civil_from_days (z0 : Int) : Int × Int × Int :=
  let z := z0 + 719468
  let era := Int.fdiv z 146097
  let doe := z - era * 146097
  let yoe := Int.fdiv (doe - Int.fdiv doe 1460 + Int.fdiv doe 36524 - Int.fdiv doe 146096) 365
  let y := yoe + era * 400
  let doy := doe - (365 * yoe + Int.fdiv yoe 4 - Int.fdiv yoe 100)
  let mp := Int.fdiv (5 * doy + 2) 153
  let d := doy - Int.fdiv (153 * mp + 2) 5 + 1
  let m := mp + (if mp < 10 then 3 else -9)
  (if m ≤ 2 then y + 1 else y, m, d)

/-- Zero-pad to two digits (month and day fields of `isoformat`). -/
def pad2 (n : Int) : String :=
  if n < 10 then "0" ++ toString n else toString n

/-- Zero-pad to four digits (year field of `isoformat`). -/
def pad4 (n : Int) : String :=
  if n < 10 then "000" ++ toString n
  else if n < 100 then "00" ++ toString n
  else if n < 1000 then "0" ++ toString n
  else toString n

/-- `now.date().isoformat()`: the `YYYY-MM-DD` string of the UTC day
containing the instant `t`. -/
def date_iso (t : Int) : String :=
  let ymd := civil_from_days (Int.fdiv t 86400)
  pad4 ymd.1 ++ "-" ++ pad2 ymd.2.1 ++ "-" ++ pad2 ymd.2.2

/-- `csv_key = f"access_review_{now.date().isoformat()}.csv"`. -/
def csv_key_of (env : Env) : String :=
  "access_review_" ++ date_iso env.now ++ ".csv"

/-- The CSV header row `["Username", "DaysUnused", "Severity"]`. -/
def header_row : List String := ["Username", "DaysUnused", "Severity"]

/-- The SNS subject
`f"🟠 IAM Access Review Summary – {len(high)} High / {len(medium)} Medium Risks"`. -/
def subject_line (high medium : List String) : String :=
  "🟠 IAM Access Review Summary – " ++ toString high.length ++ " High / "
    ++ toString medium.length ++ " Medium Risks"

/-- `message_lines` of the summary email, including the
`*(high or ["None"])` / `*(medium or ["None"])` splices. -/
def message_lines (report_bucket run_date csv_key : String)
    (high medium : List String) : List String :=
  ["AWS IAM Access Review – Summary", "", "Run Date: " ++ run_date, "",
    "HIGH Risk Users (" ++ toString high.length ++ "):"]
  ++ (if high.isEmpty then ["None"] else high)
  ++ ["", "MEDIUM Risk Users (" ++ toString medium.length ++ "):"]
  ++ (if medium.isEmpty then ["None"] else medium)
  ++ ["", "Recommended Actions:", "- Review unused access",
    "- Remove unnecessary permissions", "- Enforce least-privilege policies", "",
    "A detailed CSV report is available in S3:", "Bucket: " ++ report_bucket,
    "Key: " ++ csv_key]

/-- The dict returned by `lambda_handler` (`statusCode` plus the fields
serialized into `body`). -/
structure RunResult where
  statusCode : Nat
  high_count : Nat
  medium_count : Nat
  csv_key : String
deriving DecidableEq, Repr

/-- Everything observable about a completed run: the returned value, the
final loop accumulators, and the ordered side-effect trace. -/
structure RunOutcome where
  result : RunResult
  high : List String
  medium : List String
  report_rows : List (List String)
  events : List Event
deriving DecidableEq, Repr

/-- The code after the `for` loop in `lambda_handler`, given the final
loop accumulator: the single CSV `put_object`, then the single
`sns.publish`, then the returned dict. -/
def finish_run (env : Env) (acc : RunAcc) : RunOutcome :=
  { result := { statusCode := 200, high_count := acc.high.length,
                medium_count := acc.medium.length, csv_key := csv_key_of env }
    high := acc.high
    medium := acc.medium
    report_rows := acc.report_rows
    events := acc.events
      ++ [Event.put_report (csv_key_of env) (header_row :: acc.report_rows),
          Event.publish (subject_line acc.high acc.medium)
            (String.intercalate "\n"
              (message_lines env.report_bucket (date_iso env.now) (csv_key_of env)
                acc.high acc.medium))] }

/-- `lambda_handler(event, context)`: the per-user loop (folding
`process_user` over the listed users; an uncaught exception in the loop
aborts the run with nothing written or published), then `finish_run`. -/
def lambda_handler (env : Env) : Except Unit RunOutcome :=
  match env.users.foldlM (process_user env) initAcc with
  | .error e => Except.error e
  | .ok acc => Except.ok (finish_run env acc)

/-- The severity column of a CSV report row (`row[2]`). -/
def row_severity (row : List String) : String := row.getD 2 ""

/-- Counting invariant maintained by the per-user loop: each summary
listing has exactly one line per report row of its severity, and every
report row's severity column is `MEDIUM` or `HIGH`. -/
def countsInv (acc : RunAcc) : Prop :=
  acc.high.length = acc.report_rows.countP (fun r => row_severity r == "HIGH")
  ∧ acc.medium.length = acc.report_rows.countP (fun r => row_severity r == "MEDIUM")
  ∧ ∀ r ∈ acc.report_rows, row_severity r = "MEDIUM" ∨ row_severity r = "HIGH"

/-- Well-formedness of the alert-state saves recorded so far: every
`save_state` event uses a key of the form `"alerts/" + name + ".json"`
and a record carrying the run instant and one of the three severity
strings produced by `calculate_risk`. -/
def saveEventsWF (env : Env) (acc : RunAcc) : Prop :=
  ∀ k rec, Event.save_state k rec ∈ acc.events →
    (∃ name : String, k = "alerts/" ++ name ++ ".json")
    ∧ rec.last_alerted = env.now
    ∧ (rec.severity = "LOW" ∨ rec.severity = "MEDIUM" ∨ rec.severity = "HIGH")

/-- A placeholder outcome, used only as the default of `Option.getD`
when extracting the outcome of a run known to succeed. -/
def dummyOutcome : RunOutcome :=
  { result := { statusCode := 0, high_count := 0, medium_count := 0, csv_key := "" }
    high := [], medium := [], report_rows := [], events := [] }

/-- Concrete run for exercising failure isolation: two users that both
classify HIGH (no recorded password use); the state-store lookup for
`alice` fails with a non-`NoSuchKey` error, `bob` has no prior state. -/
def env3 : Env :=
  { users := [⟨"alice", none⟩, ⟨"bob", none⟩], now := 0, report_bucket := "b"
    suppression_days := 7
    lookup := fun k => if k = "alerts/alice.json" then .getError else .noSuchKey }

/-- Concrete run with a single emitting user: `alice` has no recorded
password use (classifies HIGH) and no prior alert state. -/
def env4 : Env :=
  { users := [⟨"alice", none⟩], now := 0, report_bucket := "b"
    suppression_days := 7, lookup := fun _ => .noSuchKey }

/-- The outcome of the single-user run `env4`. -/
def outcome4 : RunOutcome := (lambda_handler env4).toOption.getD dummyOutcome

/-- Concrete run with no users at all. -/
def env7 : Env :=
  { users := [], now := 0, report_bucket := "b", suppression_days := 7
    lookup := fun _ => .noSuchKey }

/-- The outcome of the empty run `env7`. -/
def outcome7 : RunOutcome := (lambda_handler env7).toOption.getD dummyOutcome

/-- Concrete run with one HIGH user (`alice`, never used) and one MEDIUM
user (`bob`, last used 95 days before `now`), neither with prior state. -/
def env10 : Env :=
  { users := [⟨"alice", none⟩, ⟨"bob", some (-95 * 86400)⟩], now := 0
    report_bucket := "b", suppression_days := 7, lookup := fun _ => .noSuchKey }

/-- The outcome of the two-user run `env10`. -/
def outcome10 : RunOutcome := (lambda_handler env10).toOption.getD dummyOutcome

/-! ## General lemmas about the embedding -/

/-- `calculate_risk` only ever returns the three severity strings. -/
theorem calculate_risk_mem (d : Int) :
    (calculate_risk d).1 = "HIGH" ∨ (calculate_risk d).1 = "MEDIUM"
      ∨ (calculate_risk d).1 = "LOW" := by
  unfold calculate_risk
  split
  · exact Or.inl rfl
  split
  · exact Or.inr (Or.inl rfl)
  · exact Or.inr (Or.inr rfl)

/-- A user that classifies LOW is skipped by the loop body: no report
row, no summary line, no side effect. -/
theorem process_user_of_low (env : Env) (acc : RunAcc) (u : User)
    (h : (calculate_risk (days_unused env u)).1 = "LOW") :
    process_user env acc u = Except.ok acc := by
  simp only [process_user]
  rw [if_pos h]

/-- A user that does not classify LOW and whose state lookup fails with
a non-`NoSuchKey` error or a malformed body makes the loop body raise. -/
theorem process_user_error_of_lookup_failure (env : Env) (acc : RunAcc) (u : User)
    (hsev : (calculate_risk (days_unused env u)).1 ≠ "LOW")
    (hlk : env.lookup (alert_state_key u.userName) = StateLookup.getError
         ∨ env.lookup (alert_state_key u.userName) = StateLookup.malformed) :
    process_user env acc u = Except.error () := by
  simp only [process_user]
  rw [if_neg hsev]
  rcases hlk with hlk | hlk <;> rw [hlk] <;> rfl

/-- If some user of the list always makes the loop body raise, the whole
loop raises (the `for` loop has no per-user exception handler). -/
theorem foldlM_error_of_mem (env : Env) (u : User)
    (herr : ∀ acc', process_user env acc' u = Except.error ()) (l : List User) :
    ∀ acc : RunAcc, u ∈ l → l.foldlM (process_user env) acc = Except.error () := by
  induction l with
  | nil => intro acc hu; cases hu
  | cons v vs ih =>
    intro acc hu
    rw [List.foldlM_cons]
    rcases List.mem_cons.mp hu with rfl | hmem
    · rw [herr acc]; rfl
    · cases hpv : process_user env acc v with
      | error e => rfl
      | ok acc1 => exact ih acc1 hmem

/-- Any property of the accumulator preserved by the loop body holds for
the final accumulator of a loop that terminates normally. -/
theorem foldlM_preserves (env : Env) (P : RunAcc → Prop)
    (hstep : ∀ acc u acc', process_user env acc u = Except.ok acc' → P acc → P acc')
    (l : List User) :
    ∀ acc acc' : RunAcc, P acc →
      l.foldlM (process_user env) acc = Except.ok acc' → P acc' := by
  induction l with
  | nil =>
    intro acc acc' hacc h
    rw [List.foldlM_nil] at h
    cases h
    exact hacc
  | cons v vs ih =>
    intro acc acc' hacc h
    rw [List.foldlM_cons] at h
    cases hpv : process_user env acc v with
    | error e => rw [hpv] at h; cases h
    | ok acc1 =>
      rw [hpv] at h
      exact ih acc1 acc' (hstep acc v acc1 hpv hacc) h

/-- Dropping LOW users from the list does not change the loop at all. -/
theorem foldlM_filter_low (env : Env) (l : List User) :
    ∀ acc : RunAcc,
      (l.filter (fun v => (calculate_risk (days_unused env v)).1 != "LOW")).foldlM
          (process_user env) acc
        = l.foldlM (process_user env) acc := by
  induction l with
  | nil => intro acc; rfl
  | cons v vs ih =>
    intro acc
    rw [List.filter_cons]
    by_cases hv : (calculate_risk (days_unused env v)).1 = "LOW"
    · have hb : ((calculate_risk (days_unused env v)).1 != "LOW") = false := by
        simp [hv]
      rw [hb, if_neg (by decide)]
      rw [List.foldlM_cons, process_user_of_low env acc v hv]
      exact ih acc
    · have hb : ((calculate_risk (days_unused env v)).1 != "LOW") = true := by
        simp [hv]
      rw [hb, if_pos rfl]
      rw [List.foldlM_cons, List.foldlM_cons]
      cases hpv : process_user env acc v with
      | error e => rfl
      | ok acc1 => exact ih acc1

/-- If the loop terminates normally, `lambda_handler` returns the
completed outcome of the final accumulator. -/
theorem lambda_handler_ok (env : Env) (acc : RunAcc)
    (hf : env.users.foldlM (process_user env) initAcc = Except.ok acc) :
    lambda_handler env = Except.ok (finish_run env acc) := by
  unfold lambda_handler
  rw [hf]

/-- If the loop raises, `lambda_handler` propagates the exception. -/
theorem lambda_handler_error (env : Env) (e : Unit)
    (hf : env.users.foldlM (process_user env) initAcc = Except.error e) :
    lambda_handler env = Except.error e := by
  unfold lambda_handler
  rw [hf]

/-- Every event appended by the loop body is an alert-state save. -/
theorem process_user_events_save (env : Env) (acc : RunAcc) (u : User) (acc' : RunAcc)
    (h : process_user env acc u = Except.ok acc')
    (hacc : ∀ e ∈ acc.events, e.kind = EventKind.save) :
    ∀ e ∈ acc'.events, e.kind = EventKind.save := by
  revert h
  simp only [process_user]
  split
  · intro h; cases h; exact hacc
  split
  · intro h; cases h
  · intro h; cases h; exact hacc
  · intro h
    cases h
    intro e he
    rcases List.mem_append.mp he with h1 | h2
    · exact hacc e h1
    · rw [List.mem_singleton.mp h2]; rfl

/-- The save-event well-formedness `saveEventsWF` is preserved by the
loop body: the only save it appends is `save_alert_state` of the user's
name, the run instant, and the severity `calculate_risk` returned. -/
theorem process_user_saveEventsWF (env : Env) (acc : RunAcc) (u : User) (acc' : RunAcc)
    (h : process_user env acc u = Except.ok acc') (hw : saveEventsWF env acc) :
    saveEventsWF env acc' := by
  revert h
  simp only [process_user]
  split
  · intro h; cases h; exact hw
  split
  · intro h; cases h
  · intro h; cases h; exact hw
  · intro h
    cases h
    intro k rec hek
    rcases List.mem_append.mp hek with h1 | h2
    · exact hw k rec h1
    · have he := List.mem_singleton.mp h2
      simp only [save_alert_state] at he
      cases he
      refine ⟨⟨u.userName, rfl⟩, rfl, ?_⟩
      rcases calculate_risk_mem (days_unused env u) with hs | hs | hs
      · exact Or.inr (Or.inr hs)
      · exact Or.inr (Or.inl hs)
      · exact Or.inl hs

/-- The counting invariant `countsInv` is preserved by the loop body. -/
theorem process_user_countsInv (env : Env) (acc : RunAcc) (u : User) (acc' : RunAcc)
    (h : process_user env acc u = Except.ok acc') (hinv : countsInv acc) :
    countsInv acc' := by
  revert h
  simp only [process_user]
  split
  · intro h; cases h; exact hinv
  split
  · intro h; cases h
  · intro h; cases h; exact hinv
  · intro h
    cases h
    obtain ⟨h1, h2, h3⟩ := hinv
    rcases calculate_risk_mem (days_unused env u) with hs | hs | hs
    · refine ⟨?_, ?_, ?_⟩
      · simp [countsInv, hs, List.countP_append, List.countP_cons, row_severity, h1]
      · simp [countsInv, hs, List.countP_append, List.countP_cons, row_severity, h2]
      · intro r hr
        rcases List.mem_append.mp hr with hr1 | hr2
        · exact h3 r hr1
        · rw [List.mem_singleton.mp hr2]
          right
          simp [row_severity, hs]
    · refine ⟨?_, ?_, ?_⟩
      · simp [countsInv, hs, List.countP_append, List.countP_cons, row_severity, h1]
      · simp [countsInv, hs, List.countP_append, List.countP_cons, row_severity, h2]
      · intro r hr
        rcases List.mem_append.mp hr with hr1 | hr2
        · exact h3 r hr1
        · rw [List.mem_singleton.mp hr2]
          left
          simp [row_severity, hs]
    · exact absurd hs (by assumption)

/-! ## The claims -/

/-- C1: the suppression decision `should_alert` is EMIT when no alert
state exists, EMIT whenever the stored severity differs from the newly
computed one (regardless of elapsed time), and otherwise EMIT exactly
when the elapsed whole days since the stored last-alerted timestamp
reach the configured suppression window (default 7 days), SUPPRESS
otherwise. -/
theorem c1_should_alert_decision (rec : AlertState) (severity : String) (now sd : Int) :
    default_suppression_days = 7
    ∧ should_alert StateLookup.noSuchKey severity now sd = Except.ok true
    ∧ (severity ≠ rec.severity →
        should_alert (StateLookup.found rec) severity now sd = Except.ok true)
    ∧ (severity = rec.severity →
        should_alert (StateLookup.found rec) severity now sd
          = Except.ok (decide (Int.fdiv (now - rec.last_alerted) 86400 ≥ sd))) := by
  refine ⟨rfl, rfl, ?_, ?_⟩
  · intro h
    simp [should_alert, h]
  · intro h
    subst h
    simp only [should_alert, ne_eq, not_true_eq_false, if_false]
    by_cases hw : Int.fdiv (now - rec.last_alerted) 86400 ≥ sd
    · simp [hw]
    · simp [hw]

/-- Witness for C1: a severity change EMITs, and an unchanged severity
6 days into a 7-day window SUPPRESSes. -/
theorem c1_witness :
    should_alert (StateLookup.found ⟨0, "MEDIUM"⟩) "HIGH" 500 7 = Except.ok true
    ∧ should_alert (StateLookup.found ⟨0, "MEDIUM"⟩) "MEDIUM" (6 * 86400) 7
        = Except.ok false := by
  constructor
  · exact (c1_should_alert_decision ⟨0, "MEDIUM"⟩ "HIGH" 500 7).2.2.1 (by decide)
  · have h := (c1_should_alert_decision ⟨0, "MEDIUM"⟩ "MEDIUM" (6 * 86400) 7).2.2.2 rfl
    rw [h]
    exact congrArg Except.ok (by decide)

/-- C2: `calculate_risk` classifies LOW below 90 days, MEDIUM from 90 to
179 days, HIGH from 180 days, with the stated boundary values. -/
theorem c2_classify_thresholds (d : Int) (hd : 0 ≤ d) :
    ((d < 90 → (calculate_risk d).1 = "LOW")
      ∧ (90 ≤ d → d < 180 → (calculate_risk d).1 = "MEDIUM")
      ∧ (180 ≤ d → (calculate_risk d).1 = "HIGH"))
    ∧ (calculate_risk 89).1 = "LOW"
    ∧ (calculate_risk 90).1 = "MEDIUM"
    ∧ (calculate_risk 179).1 = "MEDIUM"
    ∧ (calculate_risk 180).1 = "HIGH" := by
  refine ⟨⟨?_, ?_, ?_⟩, by decide, by decide, by decide, by decide⟩
  · intro h
    have h1 : ¬ d ≥ 180 := by omega
    have h2 : ¬ d ≥ 90 := by omega
    simp [calculate_risk, h1, h2]
  · intro h1 h2
    have g1 : ¬ d ≥ 180 := by omega
    have g2 : d ≥ 90 := h1
    simp [calculate_risk, g1, g2]
  · intro h
    simp [calculate_risk, show d ≥ 180 from h]

/-- Witness for C2 at `d = 45`. -/
theorem c2_witness : (calculate_risk 45).1 = "LOW" :=
  (c2_classify_thresholds 45 (by decide)).1.1 (by decide)

/-- C5: a user with no recorded password use gets the sentinel 999 days
and therefore always classifies HIGH. -/
theorem c5_no_timestamp_is_high (env : Env) (u : User)
    (h : u.passwordLastUsed = none) :
    days_unused env u = 999 ∧ (calculate_risk (days_unused env u)).1 = "HIGH" := by
  have hd : days_unused env u = 999 := by simp [days_unused, h]
  refine ⟨hd, ?_⟩
  rw [hd]
  decide

/-- Witness for C5: `alice` in the concrete run `env4`. -/
theorem c5_witness :
    days_unused env4 ⟨"alice", none⟩ = 999
    ∧ (calculate_risk (days_unused env4 ⟨"alice", none⟩)).1 = "HIGH" :=
  c5_no_timestamp_is_high env4 ⟨"alice", none⟩ rfl

/-- C8 counterexample: the stored key is not `"alerts/" ++ account_id` —
the code appends a `.json` suffix. -/
theorem c8_counterexample : alert_state_key "alice" ≠ "alerts/" ++ "alice" := by
  decide

/-- C8 (amended): the alert state is stored under exactly
`"alerts/" + account_id + ".json"`, and every alert-state record any
completed run actually saves carries the run's last-alerted instant and
a severity that is one of `"LOW"`, `"MEDIUM"`, `"HIGH"`. -/
theorem c8_amended_key_and_encoding (env : Env) (o : RunOutcome) (uname : String)
    (h : lambda_handler env = Except.ok o) :
    alert_state_key uname = "alerts/" ++ uname ++ ".json"
    ∧ ∀ k rec, Event.save_state k rec ∈ o.events →
        (∃ name : String, k = "alerts/" ++ name ++ ".json")
        ∧ rec.last_alerted = env.now
        ∧ (rec.severity = "LOW" ∨ rec.severity = "MEDIUM" ∨ rec.severity = "HIGH") := by
  refine ⟨rfl, ?_⟩
  cases hf : env.users.foldlM (process_user env) initAcc with
  | error e =>
    rw [lambda_handler_error env e hf] at h
    cases h
  | ok acc =>
    rw [lambda_handler_ok env acc hf] at h
    cases h
    have hw : saveEventsWF env acc :=
      foldlM_preserves env (saveEventsWF env)
        (fun a u a' hp hPa => process_user_saveEventsWF env a u a' hp hPa)
        env.users initAcc acc (fun k rec hek => by cases hek) hf
    intro k rec hek
    rcases List.mem_append.mp hek with h1 | h2
    · exact hw k rec h1
    · rcases List.mem_cons.mp h2 with he | he
      · cases he
      · rcases List.mem_singleton.mp he

/-- Witness for the amended C8, at the one-user run `env4`: its single
save uses key `"alerts/alice.json"` and severity `"HIGH"`. -/
theorem c8_witness :
    alert_state_key "alice" = "alerts/" ++ "alice" ++ ".json"
    ∧ ∀ k rec, Event.save_state k rec ∈ outcome4.events →
        (∃ name : String, k = "alerts/" ++ name ++ ".json")
        ∧ rec.last_alerted = env4.now
        ∧ (rec.severity = "LOW" ∨ rec.severity = "MEDIUM" ∨ rec.severity = "HIGH") :=
  c8_amended_key_and_encoding env4 outcome4 "alice" (by rfl)

/-- C9: `calculate_risk` is total over `Int` and returns LOW on every
negative input; a last-active timestamp in the future yields negative
days and the account is skipped entirely by the loop body. -/
theorem c9_negative_days_low (env : Env) (acc : RunAcc) (u : User) (t : Int)
    (hu : u.passwordLastUsed = some t) (hfut : env.now < t) :
    (∀ d : Int, d < 0 → (calculate_risk d).1 = "LOW")
    ∧ days_unused env u < 0
    ∧ (calculate_risk (days_unused env u)).1 = "LOW"
    ∧ process_user env acc u = Except.ok acc := by
  have hlow : ∀ d : Int, d < 0 → (calculate_risk d).1 = "LOW" := by
    intro d hdneg
    have g1 : ¬ d ≥ 180 := by omega
    have g2 : ¬ d ≥ 90 := by omega
    simp [calculate_risk, g1, g2]
  have hneg : days_unused env u < 0 := by
    simp only [days_unused, hu]
    exact Int.fdiv_neg' (by omega) (by decide)
  exact ⟨hlow, hneg, hlow _ hneg,
    process_user_of_low env acc u (hlow _ hneg)⟩

/-- Witness for C9: a user whose last use lies one day in the future of
`env4`'s run instant. -/
theorem c9_witness :
    (∀ d : Int, d < 0 → (calculate_risk d).1 = "LOW")
    ∧ days_unused env4 ⟨"carol", some 86400⟩ < 0
    ∧ (calculate_risk (days_unused env4 ⟨"carol", some 86400⟩)).1 = "LOW"
    ∧ process_user env4 initAcc ⟨"carol", some 86400⟩ = Except.ok initAcc :=
  c9_negative_days_low env4 initAcc ⟨"carol", some 86400⟩ 86400 rfl (by decide)

/-- C3 counterexample: in `env3`, `alice`'s state-store lookup fails
with a non-`NoSuchKey` error and the whole run aborts — `bob`, although
HIGH with no prior state, is never processed, and nothing is written or
published. -/
theorem c3_counterexample : lambda_handler env3 = Except.error () := by
  rfl

/-- C3 (amended): a state-store lookup failure other than not-found, or
malformed persisted state, for any non-LOW account aborts the entire
run — the exception propagates out of the loop, so the remaining
accounts are not processed and no report or notification is produced. -/
theorem c3_amended_lookup_failure_aborts_run (env : Env) (u : User)
    (hu : u ∈ env.users)
    (hsev : (calculate_risk (days_unused env u)).1 ≠ "LOW")
    (hlk : env.lookup (alert_state_key u.userName) = StateLookup.getError
         ∨ env.lookup (alert_state_key u.userName) = StateLookup.malformed) :
    lambda_handler env = Except.error () := by
  have herr : ∀ acc', process_user env acc' u = Except.error () := fun acc' =>
    process_user_error_of_lookup_failure env acc' u hsev hlk
  exact lambda_handler_error env ()
    (foldlM_error_of_mem env u herr env.users initAcc hu)

/-- Witness for the amended C3, at the concrete run `env3`. -/
theorem c3_witness : lambda_handler env3 = Except.error () :=
  c3_amended_lookup_failure_aborts_run env3 ⟨"alice", none⟩ (by decide)
    (by decide) (Or.inl (by decide))

/-- C4 counterexample: in the one-user run `env4`, the alert-state save
is the first external effect — strictly before the report write and the
notification publish, not after them. -/
theorem c4_counterexample :
    (lambda_handler env4).map (fun o => o.events.map Event.kind)
      = Except.ok [EventKind.save, EventKind.report, EventKind.notify] := by
  rfl

/-- C4 (amended): alert-state persistence happens inside the per-account
loop: in every completed run the event trace is the per-account state
saves followed by the report write and then the notification publish, so
each save happens strictly before — not after — the report/notification
entries are queued. -/
theorem c4_amended_save_before_sinks (env : Env) (o : RunOutcome)
    (h : lambda_handler env = Except.ok o) :
    ∃ saves : List Event,
      (∀ e ∈ saves, e.kind = EventKind.save)
      ∧ o.events = saves
          ++ [Event.put_report (csv_key_of env) (header_row :: o.report_rows),
              Event.publish (subject_line o.high o.medium)
                (String.intercalate "\n"
                  (message_lines env.report_bucket (date_iso env.now)
                    (csv_key_of env) o.high o.medium))] := by
  cases hf : env.users.foldlM (process_user env) initAcc with
  | error e =>
    rw [lambda_handler_error env e hf] at h
    cases h
  | ok acc =>
    rw [lambda_handler_ok env acc hf] at h
    cases h
    refine ⟨acc.events, ?_, rfl⟩
    exact foldlM_preserves env (fun a => ∀ e ∈ a.events, e.kind = EventKind.save)
      (fun a u a' hp hPa => process_user_events_save env a u a' hp hPa)
      env.users initAcc acc (by intro e he; cases he) hf

/-- Witness for the amended C4, at the concrete run `env4`. -/
theorem c4_witness :
    ∃ saves : List Event,
      (∀ e ∈ saves, e.kind = EventKind.save)
      ∧ outcome4.events = saves
          ++ [Event.put_report (csv_key_of env4) (header_row :: outcome4.report_rows),
              Event.publish (subject_line outcome4.high outcome4.medium)
                (String.intercalate "\n"
                  (message_lines env4.report_bucket (date_iso env4.now)
                    (csv_key_of env4) outcome4.high outcome4.medium))] :=
  c4_amended_save_before_sinks env4 outcome4 (by rfl)

/-- C6: a LOW-classified account is invisible — the loop body leaves the
accumulator untouched (no report row, no summary line, no state write,
no other side effect), and deleting every LOW account from the input
list leaves the whole loop unchanged. -/
theorem c6_low_accounts_invisible (env : Env) (acc : RunAcc) (u : User)
    (h : (calculate_risk (days_unused env u)).1 = "LOW") :
    process_user env acc u = Except.ok acc
    ∧ ∀ acc0 : RunAcc,
        (env.users.filter
            (fun v => (calculate_risk (days_unused env v)).1 != "LOW")).foldlM
          (process_user env) acc0
        = env.users.foldlM (process_user env) acc0 :=
  ⟨process_user_of_low env acc u h, foldlM_filter_low env env.users⟩

/-- Witness for C6: a user active on the run day (0 days unused). -/
theorem c6_witness :
    process_user env4 initAcc ⟨"dave", some 0⟩ = Except.ok initAcc
    ∧ ∀ acc0 : RunAcc,
        (env4.users.filter
            (fun v => (calculate_risk (days_unused env4 v)).1 != "LOW")).foldlM
          (process_user env4) acc0
        = env4.users.foldlM (process_user env4) acc0 :=
  c6_low_accounts_invisible env4 initAcc ⟨"dave", some 0⟩ (by decide)

/-- C7: every completed run — including one with no qualifying accounts —
writes exactly one report (header row first, under the date-derived key)
and publishes exactly one summary notification, whose body lists "None"
for an empty HIGH or MEDIUM listing. -/
theorem c7_report_and_summary_always (env : Env) (o : RunOutcome)
    (h : lambda_handler env = Except.ok o) :
    o.events.countP (fun e => decide (e.kind = EventKind.report)) = 1
    ∧ o.events.countP (fun e => decide (e.kind = EventKind.notify)) = 1
    ∧ Event.put_report (csv_key_of env) (header_row :: o.report_rows) ∈ o.events
    ∧ (o.high = [] →
        "None" ∈ message_lines env.report_bucket (date_iso env.now) (csv_key_of env)
          o.high o.medium)
    ∧ (o.medium = [] →
        "None" ∈ message_lines env.report_bucket (date_iso env.now) (csv_key_of env)
          o.high o.medium) := by
  cases hf : env.users.foldlM (process_user env) initAcc with
  | error e =>
    rw [lambda_handler_error env e hf] at h
    cases h
  | ok acc =>
    rw [lambda_handler_ok env acc hf] at h
    cases h
    have hsave : ∀ e ∈ acc.events, e.kind = EventKind.save :=
      foldlM_preserves env (fun a => ∀ e ∈ a.events, e.kind = EventKind.save)
        (fun a u a' hp hPa => process_user_events_save env a u a' hp hPa)
        env.users initAcc acc (by intro e he; cases he) hf
    have h0r : acc.events.countP (fun e => decide (e.kind = EventKind.report)) = 0 :=
      List.countP_eq_zero.mpr (fun e he => by rw [hsave e he]; decide)
    have h0n : acc.events.countP (fun e => decide (e.kind = EventKind.notify)) = 0 :=
      List.countP_eq_zero.mpr (fun e he => by rw [hsave e he]; decide)
    refine ⟨?_, ?_, ?_, ?_, ?_⟩
    · simp only [finish_run]
      rw [List.countP_append, h0r]
      rfl
    · simp only [finish_run]
      rw [List.countP_append, h0n]
      rfl
    · simp [finish_run]
    · intro hh
      simp only [finish_run] at hh
      simp [finish_run, message_lines, hh]
    · intro hm
      simp only [finish_run] at hm
      simp [finish_run, message_lines, hm]

/-- Witness for C7, at the zero-user run `env7`: its report listing is
empty, so the body lists "None", and exactly one report is written. -/
theorem c7_witness :
    "None" ∈ message_lines env7.report_bucket (date_iso env7.now) (csv_key_of env7)
        outcome7.high outcome7.medium
    ∧ outcome7.events.countP (fun e => decide (e.kind = EventKind.report)) = 1 := by
  have hc := c7_report_and_summary_always env7 outcome7 (by rfl)
  exact ⟨hc.2.2.2.1 (by rfl), hc.1⟩

/-- C10: in every completed run the HIGH and MEDIUM counts in the
returned result and in the published subject and body equal the number
of report rows of that severity, and every report row's severity is
MEDIUM or HIGH. -/
theorem c10_counts_consistent (env : Env) (o : RunOutcome)
    (h : lambda_handler env = Except.ok o) :
    o.result.high_count = o.high.length
    ∧ o.result.medium_count = o.medium.length
    ∧ o.high.length = o.report_rows.countP (fun r => row_severity r == "HIGH")
    ∧ o.medium.length = o.report_rows.countP (fun r => row_severity r == "MEDIUM")
    ∧ (∀ r ∈ o.report_rows, row_severity r = "MEDIUM" ∨ row_severity r = "HIGH")
    ∧ Event.publish (subject_line o.high o.medium)
        (String.intercalate "\n"
          (message_lines env.report_bucket (date_iso env.now) (csv_key_of env)
            o.high o.medium)) ∈ o.events := by
  cases hf : env.users.foldlM (process_user env) initAcc with
  | error e =>
    rw [lambda_handler_error env e hf] at h
    cases h
  | ok acc =>
    rw [lambda_handler_ok env acc hf] at h
    cases h
    have hinv : countsInv acc :=
      foldlM_preserves env countsInv
        (fun a u a' hp hPa => process_user_countsInv env a u a' hp hPa)
        env.users initAcc acc ⟨rfl, rfl, fun r hr => by cases hr⟩ hf
    obtain ⟨h1, h2, h3⟩ := hinv
    refine ⟨rfl, rfl, h1, h2, h3, ?_⟩
    simp [finish_run]

/-- Witness for C10, at the two-user run `env10` (one HIGH, one MEDIUM
report row). -/
theorem c10_witness :
    outcome10.result.high_count = outcome10.high.length
    ∧ outcome10.result.medium_count = outcome10.medium.length
    ∧ outcome10.high.length
        = outcome10.report_rows.countP (fun r => row_severity r == "HIGH")
    ∧ outcome10.medium.length
        = outcome10.report_rows.countP (fun r => row_severity r == "MEDIUM")
    ∧ (∀ r ∈ outcome10.report_rows,
        row_severity r = "MEDIUM" ∨ row_severity r = "HIGH")
    ∧ Event.publish (subject_line outcome10.high outcome10.medium)
        (String.intercalate "\n"
          (message_lines env10.report_bucket (date_iso env10.now) (csv_key_of env10)
            outcome10.high outcome10.medium)) ∈ outcome10.events :=
  c10_counts_consistent env10 outcome10 (by rfl)

end AccessReview
